import Mathlib

/-!
Verification development for the content-resolution and document-rendering
core of the indiekit support utilities (`src/packages/support/index.js`).

The JavaScript source is shallowly embedded below:

* `getData` (the CacheResolver) is embedded as a pure state-transformer over
  an explicit filesystem map.  JavaScript promise rejection becomes
  `Except String`; the resolved value of a JS promise that may be
  `undefined` becomes `Option String`.  The `.catch` that collapses every
  local read failure into `undefined` is embedded by modelling the local
  filesystem as a partial map `String → Option String` (an absent or
  unreadable file is `none`).  Local directory creation and file writes are
  modelled as always succeeding (the claims under study do not exercise
  persist failures).
* `renderDocument` / `render` / `formatDate` are embedded over explicit
  character lists; the external libraries they call (`front-matter`,
  `nunjucks`, `luxon`) are not part of the repository source, so their
  behaviour is modelled from the specification (each such definition carries
  a `Modelled from the spec:` doc comment).
-/

set_option autoImplicit false

namespace Indiekit

/-! ## Filesystem and source model for `getData` -/

/-- The local filesystem visible to `getData`: a map from full paths to file
contents.  `none` covers both a missing file and any unreadable file, because
the JS code collapses every `fsp.readFile` failure into `undefined` via
`.catch`. -/
def Fs : Type := String → Option String

/-- The empty cache directory: no path has any content. -/
def fsEmpty : Fs := fun _ => none

/-- Update the filesystem map at one path (the effect of `fsp.writeFile`). -/
def fsWrite (fs : Fs) (p : String) (content : String) : Fs :=
  fun q => if q = p then some content else fs q

/-- Embedding of `path.join(tmpdir, basepath)` for the relative identifiers
used by the cache: the two segments joined with a single separator. -/
def pathJoin (a b : String) : String := a ++ "/" ++ b

/-- The remote source capability (`publisher` in the JS source): `readFile`
returns bytes or fails with a message (JS promise rejection). -/
structure Source where
  readFile : String → Except String String

/-- JavaScript truthiness of a `String | undefined` value: `undefined` and
the empty string are falsy. -/
def isTruthy : Option String → Bool
  | none => false
  | some s => s ≠ ""

/-- Result of one `getData` call: the settled value of the returned promise
(`Except.error msg` for a thrown `Error(msg)
`, `Except.ok none` for a promise resolved with `undefined`), the filesystem
afterwards, and how many times `publisher.readFile` was invoked. -/
structure GetResult where
  ret : Except String (Option String)
  fs : Fs
  sourceCalls : Nat

/-- Embedding of `getData(basepath, tmpdir, publisher)` from
`src/packages/support/index.js` lines 112–143.

```js
let data;
const filePath = path.join(tmpdir, basepath);
const fileData = await fsp.readFile(filePath, ...).catch(e => { debug(...) });
if (fileData) { data = fileData; }
else {
  const pubData = await publisher.readFile(basepath)
    .catch(e => { throw new Error(e.message); });
  if (pubData) {
    await fsp.mkdir(path.dirname(filePath), recursive).catch(throw);
    data = await fsp.writeFile(filePath, pubData).catch(throw);
  }
}
return data;
```

Note `fsp.writeFile` resolves to `undefined`, so on the fetch path `data`
is assigned `undefined` even though the file is written; the embedding keeps
this faithfully (`ret := .ok none`).  `fsp.mkdir` with `recursive: true` is
idempotent and modelled as always succeeding. -/
def getData (basepath tmpdir : String) (publisher : Source) (fs : Fs) :
    GetResult :=
  let filePath := pathJoin tmpdir basepath
  let fileData : Option String := fs filePath
  if isTruthy fileData then
    { ret := .ok fileData, fs := fs, sourceCalls := 0 }
  else
    match publisher.readFile basepath with
    | .error msg => { ret := .error msg, fs := fs, sourceCalls := 1 }
    | .ok pubData =>
      if pubData ≠ "" then
        { ret := .ok none, fs := fsWrite fs (pathJoin tmpdir basepath) pubData,
          sourceCalls := 1 }
      else
        { ret := .ok none, fs := fs, sourceCalls := 1 }

/-- A source that answers `"hello"` for the identifier `a/b.txt` and fails
for everything else. -/
def helloSource : Source :=
  ⟨fun p => if p = "a/b.txt" then .ok "hello" else .error "not found"⟩

/-- A source whose every read fails with the message `boom`. -/
def boomSource : Source := ⟨fun _ => .error "boom"⟩

/-- A source that answers the empty string for every identifier. -/
def emptySource : Source := ⟨fun _ => .ok ""⟩

/-! ## Document model: values, contexts -/

/-- A JavaScript value as it appears in parsed frontmatter: a string, or a
nested key/value object (assoc list). -/
inductive Val where
  | str : String → Val
  | obj : List (String × Val) → Val

/-- The caller-owned render context: a map from variable names to values
(`undefined` keys are `none`).  Context mutation (`context.page = …`) is
embedded as explicit state passing: `renderDocument` returns the updated
context alongside the document. -/
def Context : Type := String → Option Val

/-- The empty context. -/
def ctxEmpty : Context := fun _ => none

/-- Set one key of a context, leaving every other key unchanged (the effect
of a JS property assignment). -/
def ctxSet (ctx : Context) (k : String) (v : Val) : Context :=
  fun k' => if k' = k then some v else ctx k'

/-- First value bound to a key in an assoc list. -/
def assocFind (k : String) : List (String × Val) → Option Val
  | [] => none
  | (k', v) :: rest => if k = k' then some v else assocFind k rest

/-! ## Frontmatter parsing

The JS source calls the external `front-matter` package, which is not part
of this repository, so the parser is modelled from the spec (§4.2, §6):
a leading metadata block opened and closed by a line of three hyphens,
parsed as a key/value mapping; absent marker ⇒ empty frontmatter and the
raw text unchanged; opened but unclosed marker ⇒ ParseError. -/

/-- The frontmatter delimiter line, three hyphens. -/
def marker : List Char := ['-', '-', '-']

/-- Split a character list at every occurrence of the separator `c`. -/
def splitOnChar (c : Char) : List Char → List (List Char)
  | [] => [[]]
  | x :: xs =>
    let r := splitOnChar c xs
    if x = c then [] :: r
    else match r with
      | [] => [[x]]
      | y :: ys => (x :: y) :: ys

/-- Rejoin lines with the separator `c` (left inverse of `splitOnChar`). -/
def joinWith (c : Char) : List (List Char) → List Char
  | [] => []
  | [l] => l
  | l :: ls => l ++ c :: joinWith c ls

/-- Split a line list at the first closing `marker` line: the lines before
it and the lines after it, or `none` when no line equals the marker. -/
def splitAtMarker : List (List Char) → Option (List (List Char) × List (List Char))
  | [] => none
  | l :: ls =>
    if l = marker then some ([], ls)
    else match splitAtMarker ls with
      | none => none
      | some (a, b) => some (l :: a, b)

/-- Drop leading spaces. -/
def dropSpaces : List Char → List Char
  | [] => []
  | c :: cs => if c = ' ' then dropSpaces cs else c :: cs

/-- Trim spaces from both ends of a character list. -/
def trimChars (cs : List Char) : List Char :=
  (dropSpaces (dropSpaces cs).reverse).reverse

/-- Split a character list at the first occurrence of `c`, if any. -/
def splitFirst (c : Char) : List Char → Option (List Char × List Char)
  | [] => none
  | x :: xs =>
    if x = c then some ([], xs)
    else match splitFirst c xs with
      | none => none
      | some (a, b) => some (x :: a, b)

/-- Modelled from the spec: one line of the metadata block, parsed as a flat
`key: value` pair (§6 "parsed as a flat or nested key/value mapping"; the
claims only exercise flat string values).  Lines without a colon are
skipped. -/
def parseFMLine (l : List Char) : Option (String × Val) :=
  match splitFirst ':' l with
  | none => none
  | some (k, v) => some (String.mk (trimChars k), Val.str (String.mk (trimChars v)))

/-- Parse all metadata lines into a frontmatter mapping. -/
def parseFMLines (ls : List (List Char)) : List (String × Val) :=
  ls.filterMap parseFMLine

/-- Modelled from the spec: the external `front-matter` package invoked as
`frontmatter(string)` in `renderDocument` (src line 177) is not part of this
repository.  Per spec §4.2: if the text does not start with the marker line,
`frontmatter = \x7b\x7d` and the body is the raw text unchanged; if the
opening marker is present but never closed, a ParseError; otherwise the
parsed mapping and the text after the closing marker line. -/
def parseFM (raw : String) : Except String (List (String × Val) × String) :=
  match splitOnChar '\n' raw.data with
  | [] => .ok ([], raw)
  | l :: ls =>
    if l = marker then
      match splitAtMarker ls with
      | none => .error "ParseError: frontmatter block opened but never closed"
      | some (fmLines, bodyLines) =>
        .ok (parseFMLines fmLines, String.mk (joinWith '\n' bodyLines))
    else .ok ([], raw)

/-! ## Template rendering

`render(string, context)` (src lines 153–159) constructs a fresh nunjucks
environment per call, registers the `date` filter, and calls
`env.renderString(string, context)`.  nunjucks itself is an external
library, so its interpolation behaviour is modelled from the spec (§4.3):
`\x7b\x7b expr \x7d\x7d` expressions are expanded against the context with
dotted lookup; undefined variable references render as empty (lenient
policy); a syntax error (an unclosed tag) is a TemplateError. -/

/-- Look a dotted path up inside a value. -/
def lookupPath : Option Val → List (List Char) → Option Val
  | v, [] => v
  | some (Val.obj kvs), k :: ks => lookupPath (assocFind (String.mk k) kvs) ks
  | some (Val.str _), _ :: _ => none
  | none, _ :: _ => none

/-- Render one interpolation expression: a dotted variable path, looked up
in the context; per the spec's lenient policy an undefined reference (or a
non-string result) renders as the empty string. -/
def evalExpr (ctx : Context) (expr : List Char) : List Char :=
  match splitOnChar '.' (trimChars expr) with
  | [] => []
  | k :: ks =>
    match lookupPath (ctx (String.mk k)) ks with
    | some (Val.str s) => s.data
    | some (Val.obj _) => []
    | none => []

/-- Scanner state for the single-pass template expansion: outside any tag,
after one opening brace, inside a tag (accumulating the expression), or
after one closing brace inside a tag. -/
inductive RState where
  | out : RState
  | brace1 : RState
  | inTag : List Char → RState
  | close1 : List Char → RState

/-- Modelled from the spec: single-pass expansion of a nunjucks template
string against a context (spec §4.3, §6 "interpolation (`\x7b\x7b expr \x7d\x7d`)").
A tag opened but never closed is a template syntax error (TemplateError). -/
def renderChars (ctx : Context) : RState → List Char → Except String (List Char)
  | .out, [] => .ok []
  | .out, c :: cs =>
    if c = '\x7b' then renderChars ctx .brace1 cs
    else (c :: ·) <$> renderChars ctx .out cs
  | .brace1, [] => .ok ['\x7b']
  | .brace1, c :: cs =>
    if c = '\x7b' then renderChars ctx (.inTag []) cs
    else (fun r => '\x7b' :: c :: r) <$> renderChars ctx .out cs
  | .inTag _, [] => .error "TemplateError: expected variable end"
  | .inTag acc, c :: cs =>
    if c = '\x7d' then renderChars ctx (.close1 acc) cs
    else renderChars ctx (.inTag (acc ++ [c])) cs
  | .close1 _, [] => .error "TemplateError: expected variable end"
  | .close1 acc, c :: cs =>
    if c = '\x7d' then (evalExpr ctx acc ++ ·) <$> renderChars ctx .out cs
    else renderChars ctx (.inTag (acc ++ ['\x7d', c])) cs

/-- Modelled from the spec: `env.renderString(src, context)` where `src` is
a JS `String | undefined` value.  A missing template yields an empty render
rather than throwing (spec §4.3 lenient policy: "a missing title template
yields an empty render rather than throwing"). -/
def renderString (src : Option String) (ctx : Context) : Except String String :=
  match src with
  | none => .ok ""
  | some s => String.mk <$> renderChars ctx .out s.data

/-- Embedding of `render(string, context)` (src lines 153–159): a fresh
stateless environment per call, then `renderString`.  The `date` filter it
registers is embedded separately as `formatDate`. -/
def render (string : Option String) (context : Context) : Except String String :=
  renderString string context

/-! ## Document rendering -/

/-- The rendered document returned by `renderDocument`: rendered body, the
parsed frontmatter under `page`, and the rendered title (the empty string
when the frontmatter has no title, the empty render of a missing
template). -/
structure Document where
  body : String
  page : List (String × Val)
  title : String

/-- The `title` property of a parsed frontmatter object, as the JS access
`document.attributes.title` sees it: the bound string, or `undefined` when
the key is absent (the model parser binds only string values). -/
def getTitle (attrs : List (String × Val)) : Option String :=
  match assocFind "title" attrs with
  | some (Val.str s) => some s
  | some (Val.obj _) => none
  | none => none

/-- Embedding of `renderDocument(file, context)` (src lines 169–188).  The
source first reads the file and converts the buffer to a UTF-8 string; the
embedding starts from that string (`raw`).  Steps, as in the source:

```js
const document = frontmatter(string);
context.page = document.attributes;
return {
  body: utils.render(document.body, context),
  page: document.attributes,
  title: utils.render(document.attributes.title, context)
};
```

The mutation of the caller's context is embedded by returning the updated
context alongside the document.  A ParseError from `frontmatter` or a
TemplateError from either `render` call propagates (`Except.error`). -/
def renderDocument (raw : String) (context : Context) :
    Except String (Document × Context) :=
  match parseFM raw with
  | .error e => .error e
  | .ok (attrs, body) =>
    let context' := ctxSet context "page" (Val.obj attrs)
    match render (some body) context' with
    | .error e => .error e
    | .ok body' =>
      match render (getTitle attrs) context' with
      | .error e => .error e
      | .ok title' =>
        .ok ({ body := body', page := attrs, title := title' }, context')

/-! ## Date formatting

`formatDate(str, format, locale = 'en-GB')` (src lines 92–101):

```js
const date = (str === 'now') ? DateTime.local() : str;
const datetime = DateTime.fromISO(date, \x7blocale, zone: 'utc'\x7d).toFormat(format);
return datetime;
```

luxon's `DateTime` is an external library, so it is modelled from the spec
(§4.3): ISO-8601 parsing interpreted in UTC, token-based formatting, and a
TemplateError when the value is neither `now` nor a valid timestamp. -/

/-- A calendar date-time, the model of a valid luxon `DateTime`. -/
structure DateTime where
  year : Nat
  month : Nat
  day : Nat
  hour : Nat
  minute : Nat
  second : Nat
deriving DecidableEq

/-- Read one decimal digit. -/
def digitVal (c : Char) : Option Nat :=
  if c.isDigit then some (c.toNat - 48) else none

/-- Read exactly `n` decimal digits from the front of a character list,
returning their value and the remaining characters. -/
def readDigits : Nat → Nat → List Char → Option (Nat × List Char)
  | 0, acc, cs => some (acc, cs)
  | n + 1, acc, c :: cs =>
    match digitVal c with
    | some d => readDigits n (acc * 10 + d) cs
    | none => none
  | _ + 1, _, [] => none

/-- Expect one literal character at the front of the list. -/
def expectChar (c : Char) : List Char → Option (List Char)
  | x :: xs => if x = c then some xs else none
  | [] => none

/-- Modelled from the spec: luxon `DateTime.fromISO(text, zone utc)` on a
string — parse an ISO-8601 timestamp (`YYYY-MM-DD`, optionally followed by
`THH:MM:SS` and an optional trailing `Z`), interpreted in UTC.  Returns
`none` (an invalid DateTime) when the text is not a valid timestamp. -/
def fromISOString (s : String) : Option DateTime :=
  match readDigits 4 0 s.data with
  | none => none
  | some (y, r1) =>
    match expectChar '-' r1 with
    | none => none
    | some r2 =>
      match readDigits 2 0 r2 with
      | none => none
      | some (mo, r3) =>
        if mo < 1 ∨ 12 < mo then none
        else
          match expectChar '-' r3 with
          | none => none
          | some r4 =>
            match readDigits 2 0 r4 with
            | none => none
            | some (d, r5) =>
              if d < 1 ∨ 31 < d then none
              else
                match r5 with
                | [] => some ⟨y, mo, d, 0, 0, 0⟩
                | 'T' :: r6 =>
                  (match readDigits 2 0 r6 with
                   | none => none
                   | some (h, r7) =>
                     if 23 < h then none
                     else
                       match expectChar ':' r7 with
                       | none => none
                       | some r8 =>
                         match readDigits 2 0 r8 with
                         | none => none
                         | some (mi, r9) =>
                           if 59 < mi then none
                           else
                             match expectChar ':' r9 with
                             | none => none
                             | some r10 =>
                               match readDigits 2 0 r10 with
                               | none => none
                               | some (se, r11) =>
                                 if 59 < se then none
                                 else
                                   match r11 with
                                   | [] => some ⟨y, mo, d, h, mi, se⟩
                                   | ['Z'] => some ⟨y, mo, d, h, mi, se⟩
                                   | _ => none)
                | _ => none

/-- Decimal digit character. -/
def digitChar (d : Nat) : Char := Char.ofNat (48 + d % 10)

/-- Two-digit zero-padded rendering of a number below 100. -/
def pad2 (n : Nat) : List Char := [digitChar (n / 10), digitChar n]

/-- Four-digit zero-padded rendering of a number below 10000. -/
def pad4 (n : Nat) : List Char :=
  [digitChar (n / 1000), digitChar (n / 100), digitChar (n / 10), digitChar n]

/-- Modelled from the spec: luxon token-based formatting (`toFormat`) for
the numeric tokens the spec exercises (`yyyy`, `MM`, `dd`, `HH`, `mm`,
`ss`); other characters pass through unchanged.  The locale only affects
word-based tokens, which are not modelled. -/
def toFormatChars (dt : DateTime) : List Char → List Char
  | 'y' :: 'y' :: 'y' :: 'y' :: rest => pad4 dt.year ++ toFormatChars dt rest
  | 'M' :: 'M' :: rest => pad2 dt.month ++ toFormatChars dt rest
  | 'd' :: 'd' :: rest => pad2 dt.day ++ toFormatChars dt rest
  | 'H' :: 'H' :: rest => pad2 dt.hour ++ toFormatChars dt rest
  | 'm' :: 'm' :: rest => pad2 dt.minute ++ toFormatChars dt rest
  | 's' :: 's' :: rest => pad2 dt.second ++ toFormatChars dt rest
  | c :: rest => c :: toFormatChars dt rest
  | [] => []

/-- Modelled from the spec: `DateTime.fromISO(date, …)` applied to the value
of the JS conditional `(str === 'now') ? DateTime.local() : str` — the
current local date-time passes through as itself, a string is parsed as
ISO-8601. -/
def fromISO : Sum DateTime String → Option DateTime
  | .inl dt => some dt
  | .inr s => fromISOString s

/-- Modelled from the spec: `.toFormat(format)` on the result of `fromISO`;
an invalid date-time is a TemplateError (spec §4.3: "fails with a
TemplateError if `value` is neither `now` nor a valid ISO-8601
timestamp"). -/
def toFormat (dt : Option DateTime) (format : String) : Except String String :=
  match dt with
  | some dt => .ok (String.mk (toFormatChars dt format.data))
  | none => .error "TemplateError: invalid DateTime"

/-- Embedding of `formatDate(str, format, locale = 'en-GB')` (src lines
92–101), parameterised by the current local date-time `now` (the value of
`DateTime.local()`); the locale argument is carried but only affects
word-based format tokens, which the spec's claims do not exercise. -/
def formatDate (now : DateTime) (str format locale : String) :
    Except String String :=
  let date : Sum DateTime String := if str = "now" then .inl now else .inr str
  let _ := locale
  toFormat (fromISO date) format

/-! ## Sanity checks on the embedding

Concrete evaluations of the definitions above, matching the spec's §8
examples where applicable. -/

example :
    parseFM "---\ntitle: Hi\n---\nBody"
      = .ok ([("title", Val.str "Hi")], "Body") := by rfl

example :
    parseFM "---\ntitle: Hi"
      = .error "ParseError: frontmatter block opened but never closed" := by rfl

example : parseFM "Body text" = .ok ([], "Body text") := by rfl

example :
    render (some "Body \x7b\x7b page.title \x7d\x7d")
      (ctxSet ctxEmpty "page" (Val.obj [("title", Val.str "Hi")]))
      = .ok "Body Hi" := by rfl

example : render none ctxEmpty = .ok "" := by rfl

example :
    render (some "\x7b\x7b missing \x7d\x7d!") ctxEmpty = .ok "!" := by rfl

example :
    (renderDocument "---\ntitle: Hi\n---\nBody \x7b\x7b page.title \x7d\x7d"
        ctxEmpty).map (fun p => (p.1.body, p.1.title))
      = .ok ("Body Hi", "Hi") := by rfl

example :
    formatDate ⟨2026, 10, 11, 0, 0, 0⟩ "2020-01-01T00:00:00Z" "dd/MM/yyyy" "en-GB"
      = .ok "01/01/2020" := by rfl

example :
    formatDate ⟨2026, 10, 11, 12, 30, 5⟩ "now" "yyyy-MM-dd" "en-GB"
      = .ok "2026-10-11" := by rfl

example :
    formatDate ⟨2026, 10, 11, 0, 0, 0⟩ "not-a-date" "dd/MM/yyyy" "en-GB"
      = .error "TemplateError: invalid DateTime" := by rfl

example :
    (getData "a/b.txt" "dir" helloSource fsEmpty).fs "dir/a/b.txt"
      = some "hello" := by
  simp [getData, fsEmpty, helloSource, isTruthy, fsWrite, pathJoin]

example : (getData "a/b.txt" "dir" helloSource fsEmpty).ret = .ok none := by
  simp [getData, fsEmpty, helloSource, isTruthy, pathJoin]

/-! ## Claim theorems: CacheResolver (`getData`) -/

/-- C1: on an empty cache with a source whose `readFile('a/b.txt')` returns
`"hello"`, the cache file `dir/a/b.txt` does afterwards contain `"hello"`
and the source is consulted exactly once — but `getData` returns
`undefined` (`Except.ok none`), not the fetched bytes, because the source
assigns `data = await fsp.writeFile(filePath, pubData)` and `writeFile`
resolves to `undefined`.  This contradicts the claim's (and the function's
own `@returns` JSDoc's) promise that the fetched bytes are returned. -/
theorem getData_fetch_persists_but_returns_undefined :
    (getData "a/b.txt" "dir" helloSource fsEmpty).ret = .ok none ∧
    (getData "a/b.txt" "dir" helloSource fsEmpty).fs "dir/a/b.txt"
      = some "hello" ∧
    (getData "a/b.txt" "dir" helloSource fsEmpty).sourceCalls = 1 := by
  refine ⟨?_, ?_, ?_⟩ <;>
    simp [getData, fsEmpty, helloSource, isTruthy, fsWrite, pathJoin]

/-- C2: for an identifier with no entry in the cache directory, when the
source's `readFile` fails, `getData` fails carrying the source's underlying
message and performs no local write: the cache path still has no entry
afterwards. -/
theorem getData_fetch_failure_no_write (basepath tmpdir msg : String)
    (publisher : Source) (fs : Fs)
    (hmiss : fs (pathJoin tmpdir basepath) = none)
    (hfail : publisher.readFile basepath = .error msg) :
    (getData basepath tmpdir publisher fs).ret = .error msg ∧
    (getData basepath tmpdir publisher fs).fs (pathJoin tmpdir basepath)
      = none := by
  constructor <;> simp [getData, hmiss, hfail, isTruthy]

/-- Witness for C2 at a concrete input: identifier `a/b.txt`, empty cache,
a source failing with `boom`. -/
theorem getData_fetch_failure_no_write_witness :
    (getData "a/b.txt" "dir" boomSource fsEmpty).ret = .error "boom" ∧
    (getData "a/b.txt" "dir" boomSource fsEmpty).fs (pathJoin "dir" "a/b.txt")
      = none :=
  getData_fetch_failure_no_write "a/b.txt" "dir" "boom" boomSource fsEmpty
    rfl rfl

/-- Counterexample to C3 as stated: with a source whose `readFile` returns
the empty string, a first `getData` call succeeds (its promise resolves, no
error is thrown), yet a second call with the same arguments invokes
`source.readFile` once more, not zero times — the empty fetch result is
falsy, so nothing was cached. -/
theorem getData_second_call_refetches_after_empty_fetch :
    (getData "a" "dir" emptySource fsEmpty).ret = .ok none ∧
    (getData "a" "dir" emptySource
        ((getData "a" "dir" emptySource fsEmpty).fs)).sourceCalls = 1 := by
  constructor <;> simp [getData, fsEmpty, emptySource, isTruthy]

/-- C3 (amended): after a successful `getData` call, provided the cache
then holds a nonempty entry for the identifier, a second call with the same
arguments returns exactly those cached bytes and invokes
`source.readFile` zero times. -/
theorem getData_second_call_serves_cache (basepath tmpdir : String)
    (publisher : Source) (fs : Fs) (d : String)
    (_hok : ∃ v, (getData basepath tmpdir publisher fs).ret = .ok v)
    (hentry : (getData basepath tmpdir publisher fs).fs
        (pathJoin tmpdir basepath) = some d)
    (hne : d ≠ "") :
    (getData basepath tmpdir publisher
        ((getData basepath tmpdir publisher fs).fs)).ret = .ok (some d) ∧
    (getData basepath tmpdir publisher
        ((getData basepath tmpdir publisher fs).fs)).sourceCalls = 0 := by
  generalize (getData basepath tmpdir publisher fs).fs = fs1 at hentry ⊢
  constructor <;> simp [getData, hentry, isTruthy, hne]

/-- Witness for C3 (amended) at a concrete input: the fetch-and-persist run
of `a/b.txt` against `helloSource` leaves `hello` in the cache, and the
second call serves it without consulting the source. -/
theorem getData_second_call_serves_cache_witness :
    (getData "a/b.txt" "dir" helloSource
        ((getData "a/b.txt" "dir" helloSource fsEmpty).fs)).ret
      = .ok (some "hello") ∧
    (getData "a/b.txt" "dir" helloSource
        ((getData "a/b.txt" "dir" helloSource fsEmpty).fs)).sourceCalls
      = 0 :=
  getData_second_call_serves_cache "a/b.txt" "dir" helloSource fsEmpty "hello"
    ⟨none, by simp [getData, fsEmpty, helloSource, isTruthy, pathJoin]⟩
    (by simp [getData, fsEmpty, helloSource, isTruthy, fsWrite, pathJoin])
    (by simp)

/-- C10: when the cache file exists but holds the empty string, `getData`
treats the successful local read as a miss: the source is consulted exactly
once, the stored empty content is never the returned value, and a nonempty
successful fetch proceeds with the persist step, overwriting the entry. -/
theorem getData_empty_cache_entry_is_miss (basepath tmpdir : String)
    (publisher : Source) (fs : Fs)
    (hempty : fs (pathJoin tmpdir basepath) = some "") :
    (getData basepath tmpdir publisher fs).sourceCalls = 1 ∧
    (getData basepath tmpdir publisher fs).ret ≠ .ok (some "") ∧
    (∀ pubData, publisher.readFile basepath = .ok pubData → pubData ≠ "" →
      (getData basepath tmpdir publisher fs).fs (pathJoin tmpdir basepath)
        = some pubData) := by
  refine ⟨?_, ?_, ?_⟩
  · cases hp : publisher.readFile basepath with
    | error msg => simp [getData, hempty, isTruthy, hp]
    | ok pubData =>
      by_cases hne : pubData = "" <;> simp [getData, hempty, isTruthy, hp, hne]
  · cases hp : publisher.readFile basepath with
    | error msg => simp [getData, hempty, isTruthy, hp]
    | ok pubData =>
      by_cases hne : pubData = "" <;> simp [getData, hempty, isTruthy, hp, hne]
  · intro pubData hp hne
    simp [getData, hempty, isTruthy, hp, hne, fsWrite]

/-- Witness for C10 at a concrete input: a cache holding an empty
`dir/a/b.txt` entry, resolved against `helloSource`. -/
theorem getData_empty_cache_entry_is_miss_witness :
    (getData "a/b.txt" "dir" helloSource
        (fsWrite fsEmpty (pathJoin "dir" "a/b.txt") "")).sourceCalls = 1 ∧
    (getData "a/b.txt" "dir" helloSource
        (fsWrite fsEmpty (pathJoin "dir" "a/b.txt") "")).ret
      ≠ .ok (some "") ∧
    (∀ pubData, helloSource.readFile "a/b.txt" = .ok pubData → pubData ≠ "" →
      (getData "a/b.txt" "dir" helloSource
          (fsWrite fsEmpty (pathJoin "dir" "a/b.txt") "")).fs
          (pathJoin "dir" "a/b.txt")
        = some pubData) :=
  getData_empty_cache_entry_is_miss "a/b.txt" "dir" helloSource
    (fsWrite fsEmpty (pathJoin "dir" "a/b.txt") "") (by simp [fsWrite])

/-! ## Claim theorems: document parsing and rendering -/

/-- A line list containing no marker line has no split point. -/
theorem splitAtMarker_eq_none {ls : List (List Char)} (h : marker ∉ ls) :
    splitAtMarker ls = none := by
  induction ls with
  | nil => rfl
  | cons l ls ih =>
    simp only [List.mem_cons, not_or] at h
    simp only [splitAtMarker]
    rw [if_neg (show ¬l = marker from fun hl => h.1 hl.symm), ih h.2]

/-- C4: for every raw text that begins with the opening frontmatter marker
line but contains no closing marker line, `parseFM` fails with a ParseError
and returns no partial frontmatter, and `renderDocument` on the same input
fails the same way rather than returning a document. -/
theorem renderDocument_unclosed_frontmatter_fails (raw : String) (ctx : Context)
    (rest : List (List Char))
    (hopen : splitOnChar '\n' raw.data = marker :: rest)
    (hnoclose : marker ∉ rest) :
    parseFM raw = .error "ParseError: frontmatter block opened but never closed" ∧
    renderDocument raw ctx
      = .error "ParseError: frontmatter block opened but never closed" := by
  have h1 : parseFM raw
      = .error "ParseError: frontmatter block opened but never closed" := by
    simp [parseFM, hopen, splitAtMarker_eq_none hnoclose]
  exact ⟨h1, by simp [renderDocument, h1]⟩

/-- Witness for C4 at a concrete input: the raw text `---\ntitle: Hi`
opens a frontmatter block and never closes it. -/
theorem renderDocument_unclosed_frontmatter_fails_witness :
    parseFM "---\ntitle: Hi"
      = .error "ParseError: frontmatter block opened but never closed" ∧
    renderDocument "---\ntitle: Hi" ctxEmpty
      = .error "ParseError: frontmatter block opened but never closed" :=
  renderDocument_unclosed_frontmatter_fails "---\ntitle: Hi" ctxEmpty
    [['t', 'i', 't', 'l', 'e', ':', ' ', 'H', 'i']] (by decide) (by decide)

/-- C5: the concrete round trip — for the raw text
`---\ntitle: Hi\n---\nBody \x7b\x7b page.title \x7d\x7d`, parsing yields
frontmatter `title ↦ Hi` and the body unchanged, and `renderDocument` with
an initially empty context yields body `Body Hi` and title `Hi` — and the
general guarantee: whenever `renderDocument` succeeds, its body and title
are both rendered against the exact same context, the caller's context
with the `page` key freshly set to the parsed frontmatter. -/
theorem renderDocument_roundtrip_and_shared_context :
    parseFM "---\ntitle: Hi\n---\nBody \x7b\x7b page.title \x7d\x7d"
      = .ok ([("title", Val.str "Hi")], "Body \x7b\x7b page.title \x7d\x7d") ∧
    renderDocument "---\ntitle: Hi\n---\nBody \x7b\x7b page.title \x7d\x7d"
        ctxEmpty
      = .ok ({ body := "Body Hi", page := [("title", Val.str "Hi")],
               title := "Hi" },
             ctxSet ctxEmpty "page" (Val.obj [("title", Val.str "Hi")])) ∧
    (∀ raw ctx doc ctx', renderDocument raw ctx = .ok (doc, ctx') →
      ∃ attrs body, parseFM raw = .ok (attrs, body) ∧
        ctx' = ctxSet ctx "page" (Val.obj attrs) ∧
        render (some body) ctx' = .ok doc.body ∧
        render (getTitle attrs) ctx' = .ok doc.title) := by
  refine ⟨by rfl, by rfl, ?_⟩
  intro raw ctx doc ctx' h
  unfold renderDocument at h
  cases hp : parseFM raw with
  | error e => rw [hp] at h; exact absurd h (by simp)
  | ok p =>
    obtain ⟨attrs, body⟩ := p
    rw [hp] at h
    simp only at h
    cases hb : render (some body) (ctxSet ctx "page" (Val.obj attrs)) with
    | error e => rw [hb] at h; exact absurd h (by simp)
    | ok bodyR =>
      rw [hb] at h
      simp only at h
      cases ht : render (getTitle attrs) (ctxSet ctx "page" (Val.obj attrs)) with
      | error e => rw [ht] at h; exact absurd h (by simp)
      | ok titleR =>
        rw [ht] at h
        simp only [Except.ok.injEq, Prod.mk.injEq] at h
        obtain ⟨hdoc, hctx⟩ := h
        subst hdoc
        subst hctx
        exact ⟨attrs, body, rfl, rfl, hb, ht⟩

/-- Witness for C5's general conjunct, instantiated at the concrete round
trip input, with the hypothesis discharged by the concrete evaluation. -/
theorem renderDocument_roundtrip_and_shared_context_witness :
    ∃ attrs body,
      parseFM "---\ntitle: Hi\n---\nBody \x7b\x7b page.title \x7d\x7d"
        = .ok (attrs, body) ∧
      ctxSet ctxEmpty "page" (Val.obj [("title", Val.str "Hi")])
        = ctxSet ctxEmpty "page" (Val.obj attrs) ∧
      render (some body)
          (ctxSet ctxEmpty "page" (Val.obj [("title", Val.str "Hi")]))
        = .ok "Body Hi" ∧
      render (getTitle attrs)
          (ctxSet ctxEmpty "page" (Val.obj [("title", Val.str "Hi")]))
        = .ok "Hi" :=
  renderDocument_roundtrip_and_shared_context.2.2
    "---\ntitle: Hi\n---\nBody \x7b\x7b page.title \x7d\x7d" ctxEmpty
    { body := "Body Hi", page := [("title", Val.str "Hi")], title := "Hi" }
    (ctxSet ctxEmpty "page" (Val.obj [("title", Val.str "Hi")]))
    renderDocument_roundtrip_and_shared_context.2.1

/-- C6: for every raw document whose frontmatter has no `title` key (and
whose body renders), `renderDocument` succeeds rather than raising: the
missing title template yields the empty render as the document's title. -/
theorem renderDocument_missing_title_ok (raw : String) (ctx : Context)
    (attrs : List (String × Val)) (body bodyR : String)
    (hparse : parseFM raw = .ok (attrs, body))
    (hnotitle : getTitle attrs = none)
    (hbody : render (some body) (ctxSet ctx "page" (Val.obj attrs))
      = .ok bodyR) :
    renderDocument raw ctx
      = .ok ({ body := bodyR, page := attrs, title := "" },
             ctxSet ctx "page" (Val.obj attrs)) := by
  unfold renderDocument
  rw [hparse]
  simp only
  rw [hbody, hnotitle]
  rfl

/-- Witness for C6 at a concrete input: a document with no frontmatter at
all, hence no `title` key. -/
theorem renderDocument_missing_title_ok_witness :
    renderDocument "Body" ctxEmpty
      = .ok ({ body := "Body", page := [], title := "" },
             ctxSet ctxEmpty "page" (Val.obj [])) :=
  renderDocument_missing_title_ok "Body" ctxEmpty [] "Body" "Body"
    (by rfl) (by rfl) (by rfl)

/-- C9: whenever `renderDocument` succeeds, the caller's context has been
mutated so that its `page` key is the parsed document's frontmatter, this
updated context is the one handed back to the caller, and every key other
than `page` is left unchanged. -/
theorem renderDocument_context_mutation (raw : String) (ctx : Context)
    (doc : Document) (ctx' : Context)
    (h : renderDocument raw ctx = .ok (doc, ctx')) :
    ctx' = ctxSet ctx "page" (Val.obj doc.page) ∧
    ctx' "page" = some (Val.obj doc.page) ∧
    ∀ k, k ≠ "page" → ctx' k = ctx k := by
  unfold renderDocument at h
  cases hp : parseFM raw with
  | error e => rw [hp] at h; exact absurd h (by simp)
  | ok p =>
    obtain ⟨attrs, body⟩ := p
    rw [hp] at h
    simp only at h
    cases hb : render (some body) (ctxSet ctx "page" (Val.obj attrs)) with
    | error e => rw [hb] at h; exact absurd h (by simp)
    | ok bodyR =>
      rw [hb] at h
      simp only at h
      cases ht : render (getTitle attrs) (ctxSet ctx "page" (Val.obj attrs)) with
      | error e => rw [ht] at h; exact absurd h (by simp)
      | ok titleR =>
        rw [ht] at h
        simp only [Except.ok.injEq, Prod.mk.injEq] at h
        obtain ⟨hdoc, hctx⟩ := h
        subst hdoc
        subst hctx
        refine ⟨rfl, by simp [ctxSet], ?_⟩
        intro k hk
        simp [ctxSet, hk]

/-- Witness for C9 at a concrete input: rendering the round-trip document
against a context that already binds the unrelated key `site`. -/
theorem renderDocument_context_mutation_witness :
    ctxSet (ctxSet ctxEmpty "site" (Val.str "s")) "page"
        (Val.obj [("title", Val.str "Hi")])
      = ctxSet (ctxSet ctxEmpty "site" (Val.str "s")) "page"
          (Val.obj [("title", Val.str "Hi")]) ∧
    ctxSet (ctxSet ctxEmpty "site" (Val.str "s")) "page"
        (Val.obj [("title", Val.str "Hi")]) "page"
      = some (Val.obj [("title", Val.str "Hi")]) ∧
    (∀ k, k ≠ "page" →
      ctxSet (ctxSet ctxEmpty "site" (Val.str "s")) "page"
          (Val.obj [("title", Val.str "Hi")]) k
        = ctxSet ctxEmpty "site" (Val.str "s") k) :=
  renderDocument_context_mutation "---\ntitle: Hi\n---\nBody"
    (ctxSet ctxEmpty "site" (Val.str "s"))
    { body := "Body", page := [("title", Val.str "Hi")], title := "Hi" }
    (ctxSet (ctxSet ctxEmpty "site" (Val.str "s")) "page"
      (Val.obj [("title", Val.str "Hi")]))
    (by rfl)

/-! ## Claim theorems: the `date` filter (`formatDate`) -/

/-- C7: for every value that is neither the literal token `now` nor a valid
ISO-8601 timestamp, `formatDate` fails with a TemplateError rather than
returning a formatted string. -/
theorem formatDate_invalid_value_errors (now : DateTime)
    (str format locale : String)
    (hnow : str ≠ "now") (hiso : fromISOString str = none) :
    formatDate now str format locale
      = .error "TemplateError: invalid DateTime" := by
  simp [formatDate, hnow, fromISO, hiso, toFormat]

/-- Witness for C7 at a concrete input: the value `not-a-date`. -/
theorem formatDate_invalid_value_errors_witness :
    formatDate ⟨2026, 10, 11, 0, 0, 0⟩ "not-a-date" "dd/MM/yyyy" "en-GB"
      = .error "TemplateError: invalid DateTime" :=
  formatDate_invalid_value_errors ⟨2026, 10, 11, 0, 0, 0⟩
    "not-a-date" "dd/MM/yyyy" "en-GB" (by decide) (by rfl)

/-- C8: when the value is the literal token `now`, `formatDate` uses the
current local date-time and returns it formatted with the given token
pattern — a successful formatted string, never a failure. -/
theorem formatDate_now_formats_current_time (now : DateTime)
    (format locale : String) :
    formatDate now "now" format locale
      = .ok (String.mk (toFormatChars now format.data)) := by
  simp [formatDate, fromISO, toFormat]

end Indiekit
